import Mathlib

/-!
Verification development for the MeetingSim repository.

This file gives a shallow embedding, in Lean 4, of the pure/deterministic
core of the meeting-simulation engine:

* `meetingSim.py` — constants, sanitation helpers, the option registry
  (`register_option`, `vote_option`, `resolve_option_ref`, `best_option`),
  the social-model formula `persuasion_probability`, the stage machinery
  (`advance_stage`, `chair_step`, `summarizer_step`) and the structured-LLM
  fallback turn;
* `meeting_sim.py` — the refactored structured-LLM fallback turn;
* `Original/meetingSim.py` — the stage-transition fragment of `agent_step`;
* `backend/app/core/simulator_streaming.py` — `run_meeting_streaming`.

Conventions of the embedding:

* Python dicts used as ordered maps become association lists
  (`List (String × _)`), preserving insertion order; Python sets of agent
  names become `List String` manipulated only through `setAdd`/`setDiscard`.
* Every LLM invocation and every `random.choice` is modelled by an oracle
  argument (a plain value or function supplied by the caller); the embedded
  code is otherwise a direct transcription of the Python.
* Python string methods (`lower`, `strip`, `split`, `startswith`, `join`)
  are modelled by kernel-computable functions over the character list.
* The streaming cancellation flag is a mutable cell in Python; here it is
  modelled as a time-invariant boolean, which covers the scenario of a flag
  set before the generator starts (and the never-cancelled scenario).
-/

namespace MeetingSim

/-! ## Constants (meetingSim.py) -/

def STAGES : List String :=
  ["introduce", "clarify", "discuss", "options", "evaluate", "decide", "confirm"]

def NON_PERSON_MAP : List String :=
  ["all", "everyone", "team", "group", "committee", "room"]

def VALID_REACTIONS : List String := ["accept", "reject+propose", "decline"]

/-! ## Data model -/

/-- `meta` dictionary attached to an episodic-log entry.  The source uses
three shapes: `{}`, `{"id": …, "comment": …}` and `{"id": …, "attrs": …}`. -/
structure EpisodicMeta where
  id : Option String := none
  comment : Option String := none
  attrs : Option (List (String × ℚ)) := none
deriving DecidableEq, Repr

/-- One entry of `state["episodic"]` (see `episodic_log` in meetingSim.py). -/
structure EpisodicEntry where
  turn : Nat
  stage : String
  speaker : String
  kind : String
  text : String
  meta : EpisodicMeta := {}
deriving DecidableEq, Repr

/-- One value of the `state["options"]` registry (see `register_option`). -/
structure OptionInfo where
  text : String
  proposer : String
  supporters : List String
  opponents : List String
  abstainers : List String
  first_stage : String
  first_turn : Nat
  attributes : List (String × ℚ) := []
deriving DecidableEq, Repr

/-- The fields of the `MeetingState` dict that the embedded operations read
or write.  Fields of the Python dict that none of the embedded functions
touch are omitted; for the fields below the embedding is exact. -/
structure MeetingState where
  issue : String := ""
  stage : String := "introduce"
  dialogue : List String := []
  agents : List String := []
  stances : List (String × String) := []
  turn : Nat := 0
  last_speaker : String := ""
  last_responder : String := ""
  decision : Option String := none
  stage_turns : Nat := 0
  actions : List String := []
  options : List (String × OptionInfo) := []
  option_counter : Nat := 0
  episodic : List EpisodicEntry := []
  options_proposed : Nat := 0
  votes_cast : Nat := 0
  question_seen : List String := []
  interruptions_this_stage : Nat := 0
  accepts_this_stage : Nat := 0
deriving DecidableEq, Repr

/-- Parsed turn (`MeetingTurn` pydantic model of meetingSim.py). -/
structure MeetingTurn where
  asker : String
  question : String
  responder : String
  message : String
  reaction : String
  stance_updates : List (String × String) := []
  chair_decision : Option String := none
  end_stage : Bool := false
  next_stage : Option String := none
  action_item : Option String := none
  option_proposal : Option String := none
  option_ref : Option String := none
  option_vote : Option String := none
  option_comment : Option String := none
  negotiation_offer : Option String := none
deriving DecidableEq, Repr

/-- Parsed turn of the refactored `meeting_sim.py` (`MeetingTurn` there has
only these five fields; in particular it has no `next_stage`). -/
structure MeetingTurnR where
  asker : String
  question : String
  responder : String
  message : String
  reaction : String
deriving DecidableEq, Repr

/-! ## Python string primitives

Kernel-computable models of the Python string methods the engine uses
(`str.lower`, `str.upper`, `str.strip`, `str.split()`, `str.startswith`,
`" ".join`, `int(...)` on a digit string), written over the character
list of the string.  `lower`/`upper` act on ASCII letters, which covers
every string the engine manipulates. -/

def pyLower (s : String) : String := ⟨s.data.map Char.toLower⟩

def pyUpper (s : String) : String := ⟨s.data.map Char.toUpper⟩

def pyStrip (s : String) : String :=
  ⟨((s.data.dropWhile Char.isWhitespace).reverse.dropWhile Char.isWhitespace).reverse⟩

/-- Whitespace-run splitting of Python `str.split()` (no empty pieces). -/
def pySplitWsAux : List Char → List Char → List String
  | [], acc => if acc.isEmpty then [] else [⟨acc.reverse⟩]
  | c :: rest, acc =>
    if c.isWhitespace then
      if acc.isEmpty then pySplitWsAux rest []
      else ⟨acc.reverse⟩ :: pySplitWsAux rest []
    else pySplitWsAux rest (c :: acc)

def pySplitWs (s : String) : List String := pySplitWsAux s.data []

/-- Python `sep.join(pieces)`. -/
def joinSep (sep : String) : List String → String
  | [] => ""
  | [x] => x
  | x :: y :: rest => x ++ sep ++ joinSep sep (y :: rest)

def pyStartsWith (s pre : String) : Bool := pre.data.isPrefixOf s.data

/-- Python `int(digits)` on a string of decimal digits. -/
def parseNatDigits (cs : List Char) : Nat :=
  cs.foldl (fun acc c => acc * 10 + (c.toNat - 48)) 0

/-! ## Set helpers

Python `set.add` / `set.discard` on sets of agent names, on the list
representation. -/

def setAdd (s : List String) (x : String) : List String :=
  if x ∈ s then s else s ++ [x]

def setDiscard (s : List String) (x : String) : List String :=
  s.filter (fun y => y ≠ x)

/-! ## Social model (meetingSim.py, identical in Original/meetingSim.py) -/

/-- Python `d.get(k, default)` on a trait/goal dictionary. -/
def dictGet (d : List (String × ℚ)) (k : String) (dflt : ℚ) : ℚ :=
  (d.lookup k).getD dflt

/-- `persuasion_probability` of meetingSim.py lines 375–383. -/
def persuasion_probability (sp_traits li_traits : List (String × ℚ))
    (dom_sp align affinity_ls : ℚ) : ℚ :=
  let base : ℚ := 0.15
  let p := base
    + 0.35 * dictGet sp_traits "persuasion" 0
    + 0.25 * min 1 (dom_sp / 1.5)
    + 0.20 * align
    + 0.25 * max (-0.5) (min 0.5 affinity_ls)
    - 0.20 * dictGet li_traits "conflict_avoid" 0
  max 0.02 (min 0.9 p)

/-- Spec-side clamp function, written from the spec text
"Clamp p to [lo, hi]" (used to compare the code against the spec wording
of C8). -/
def clampSpec (x lo hi : ℚ) : ℚ := max lo (min hi x)

/-! ## Sanitation (meetingSim.py lines 299–340) -/

/-- `coerce_agent` of meetingSim.py lines 299–308 (`low` is the stripped,
lower-cased input name). -/
def coerce_agent (name : String) (state : MeetingState) : String :=
  if name = "" then "Alice"
  else if pyLower (pyStrip name) ∈ NON_PERSON_MAP then "Alice"
  else
    match state.agents.find? (fun a => pyLower (pyStrip name) == pyLower a) with
    | some a => a
    | none => "Alice"

/-- `pick_alternate` of meetingSim.py lines 310–312; `random.choice` is
modelled by the oracle index `r`. -/
def pick_alternate (r : Nat) (agent : String) (state : MeetingState) : String :=
  let others := state.agents.filter (fun a => a ≠ agent)
  if others.isEmpty then agent else others.getD (r % others.length) agent

/-- `normalize_reaction` of meetingSim.py lines 314–326. -/
def normalize_reaction (r : String) : String :=
  if r = "" then "accept"
  else
    let rl := pyLower (pyStrip r)
    if rl ∈ VALID_REACTIONS then rl
    else if pyStartsWith rl "acknowled" || pyStartsWith rl "agree" || pyStartsWith rl "yes" then
      "accept"
    else if pyStartsWith rl "reject" || pyStartsWith rl "counter" || pyStartsWith rl "propos" then
      "reject+propose"
    else if pyStartsWith rl "decline" || pyStartsWith rl "no" || pyStartsWith rl "disagree" then
      "decline"
    else "accept"

/-- `valid_next_stage` of meetingSim.py lines 328–329. -/
def valid_next_stage (s : String) : String :=
  if s ∈ STAGES then s else "discuss"

/-- `sanitize_turn` of meetingSim.py lines 331–340.  The two potential
`pick_alternate` calls get oracle indices `r1` and `r2`. -/
def sanitize_turn (r1 r2 : Nat) (parsed : MeetingTurn) (state : MeetingState)
    (caller_agent : String) : MeetingTurn :=
  let asker := coerce_agent (if parsed.asker = "" then caller_agent else parsed.asker) state
  let responder := coerce_agent
    (if parsed.responder = "" then pick_alternate r1 asker state else parsed.responder) state
  let responder := if asker = responder then pick_alternate r2 asker state else responder
  let reaction := normalize_reaction parsed.reaction
  let ns := match parsed.next_stage with
    | some s => if s = "" then state.stage else s
    | none => state.stage
  let message := if pyStrip parsed.message = "" then "Noted." else parsed.message
  { parsed with
    asker := asker, responder := responder, reaction := reaction,
    next_stage := some (valid_next_stage ns), message := message }

/-! ## Option registry (meetingSim.py lines 430–538) -/

/-- `_norm` of meetingSim.py lines 430–431: lower-case, strip, collapse
whitespace (Python `" ".join(s.lower().strip().split())`). -/
def normText (s : String) : String :=
  joinSep " " (pySplitWs (pyStrip (pyLower s)))

/-- `episodic_log` of meetingSim.py lines 392–396. -/
def episodic_log (state : MeetingState) (stage speaker kind text : String)
    (meta : EpisodicMeta) : MeetingState :=
  { state with episodic := state.episodic ++
      [{ turn := state.turn, stage := stage, speaker := speaker,
         kind := kind, text := text, meta := meta }] }

/-- In-place mutation of one registry entry (`state["options"][oid]` field
update) on the association-list representation. -/
def updateOptionInfo (options : List (String × OptionInfo)) (oid : String)
    (f : OptionInfo → OptionInfo) : List (String × OptionInfo) :=
  options.map (fun p => if p.1 = oid then (p.1, f p.2) else p)

/-- The supporter insertion `info["supporters"].add(proposer)` of the
duplicate branch of `register_option`. -/
def addSupporter (proposer : String) (i : OptionInfo) : OptionInfo :=
  { i with supporters := setAdd i.supporters proposer }

/-- `register_option` of meetingSim.py lines 446–469.  The
`evaluate_option_attributes` LLM call of the fresh branch is modelled by the
oracle value `attrs`.  Returns the option id together with the new state. -/
def registerOption (attrs : List (String × ℚ)) (state : MeetingState)
    (text proposer : String) : String × MeetingState :=
  match state.options.find? (fun p => normText p.2.text = normText text) with
  | some (oid, info) =>
    let state := { state with dialogue := state.dialogue ++
      ["[" ++ state.stage ++ "] (duplicate) Referencing existing " ++ oid ++ ": " ++ info.text] }
    let newOptions := updateOptionInfo state.options oid (addSupporter proposer)
    let state := { state with options := newOptions }
    let state := episodic_log state state.stage proposer "vote" "support"
      { id := some oid, comment := some "proposer implicit support" }
    (oid, state)
  | none =>
    -- `new_option_id` (lines 433–435)
    let counter := state.option_counter + 1
    let oid := "O" ++ toString counter
    let info : OptionInfo :=
      { text := pyStrip text, proposer := proposer,
        supporters := [proposer], opponents := [], abstainers := [],
        first_stage := state.stage, first_turn := state.turn,
        attributes := attrs }
    let state := { state with option_counter := counter,
                              options := state.options ++ [(oid, info)],
                              options_proposed := state.options_proposed + 1 }
    let state := { state with dialogue := state.dialogue ++
      ["[" ++ state.stage ++ "] OPTION PROPOSED " ++ oid ++ " by " ++ proposer ++ ": " ++ pyStrip text] }
    let state := episodic_log state state.stage proposer "option" (pyStrip text)
      { id := some oid, attrs := some attrs }
    (oid, state)

/-- Numeric suffix `int(k[1:])` of an option id `O<n>`. -/
def optionIdNum (k : String) : Nat := parseNatDigits (k.data.drop 1)

/-- `sorted(state["options"].keys(), key=lambda k: int(k[1:]))[-1]`:
the last key of the ascending stable sort, i.e. the last-occurring key with
the largest numeric suffix. -/
def latestOptionKey (options : List (String × OptionInfo)) : Option String :=
  match options.map Prod.fst with
  | [] => none
  | k :: ks => some (ks.foldl (fun acc x => if optionIdNum acc ≤ optionIdNum x then x else acc) k)

/-- `resolve_option_ref` of meetingSim.py lines 471–476. -/
def resolve_option_ref (options : List (String × OptionInfo))
    (option_ref : Option String) : Option String :=
  match option_ref with
  | some r => if r ≠ "" ∧ (options.lookup r).isSome then some r else latestOptionKey options
  | none => latestOptionKey options

/-- The re-filing of one voter in the vote sets of one option
(`vote_option` lines 484–489): first discard the voter from all three
sets, then insert according to the vote string. -/
def voteUpdate (voter vote : String) (info : OptionInfo) : OptionInfo :=
  let info := { info with
    supporters := setDiscard info.supporters voter,
    opponents := setDiscard info.opponents voter,
    abstainers := setDiscard info.abstainers voter }
  if vote = "support" then { info with supporters := setAdd info.supporters voter }
  else if vote = "oppose" then { info with opponents := setAdd info.opponents voter }
  else { info with abstainers := setAdd info.abstainers voter }

/-- `vote_option` of meetingSim.py lines 478–494. -/
def vote_option (state : MeetingState) (voter : String) (option_ref : Option String)
    (vote : String) (comment : Option String) : MeetingState :=
  match resolve_option_ref state.options option_ref with
  | none =>
    { state with dialogue := state.dialogue ++
      ["[" ++ state.stage ++ "] (vote ignored) No option available to vote on."] }
  | some oid =>
    let newOptions := updateOptionInfo state.options oid (voteUpdate voter vote)
    let state := { state with options := newOptions }
    let state := { state with votes_cast := state.votes_cast + 1 }
    let msg := "[" ++ state.stage ++ "] VOTE " ++ voter ++ " -> " ++ oid ++ ": " ++ pyUpper vote
    let msg := match comment with
      | some c => if c ≠ "" then msg ++ " — " ++ c else msg
      | none => msg
    let state := { state with dialogue := state.dialogue ++ [msg] }
    episodic_log state state.stage voter "vote" vote
      { id := some oid, comment := some ((comment.getD "")) }

/-- Scoring key of one registry entry in `best_option`:
`(supporters − opponents, supporters, −first_turn, oid)` with Python's
lexicographic tuple order. -/
def optionKey4 (p : String × OptionInfo) : ℤ ×ₗ (ℕ ×ₗ (ℤ ×ₗ String)) :=
  toLex ((p.2.supporters.length : ℤ) - (p.2.opponents.length : ℤ),
    toLex (p.2.supporters.length,
      toLex (-(p.2.first_turn : ℤ), p.1)))

/-- The first three components of `optionKey4` — the sort key named by the
spec sentence for `best()`. -/
def optionKey3 (p : String × OptionInfo) : ℤ ×ₗ (ℕ ×ₗ ℤ) :=
  toLex ((p.2.supporters.length : ℤ) - (p.2.opponents.length : ℤ),
    toLex (p.2.supporters.length, -(p.2.first_turn : ℤ)))

/-- `best_option` of meetingSim.py lines 496–505: sort the scored 4-tuples
descending and take the id of the first; equivalently the first entry whose
key is maximal. -/
def best_option (options : List (String × OptionInfo)) : Option String :=
  match options with
  | [] => none
  | h :: t =>
    some ((t.foldl (fun acc x => if optionKey4 acc < optionKey4 x then x else acc) h).1)

/-! ## Stage machinery (meetingSim.py lines 143–233 and 347–356) -/

/-- `reset_stage_counters` of meetingSim.py lines 347–350. -/
def reset_stage_counters (state : MeetingState) : MeetingState :=
  { state with interruptions_this_stage := 0, question_seen := [],
               accepts_this_stage := 0 }

/-- The default successor stage
`STAGES[idx + 1] if idx + 1 < len(STAGES) else STAGES[-1]` of
`advance_stage`, where `idx = STAGES.index(stage)`. -/
def advFallback (stage : String) : String :=
  let idx := STAGES.indexOf stage
  if idx + 1 < STAGES.length then STAGES.getD (idx + 1) "confirm" else "confirm"

/-- `advance_stage` of meetingSim.py lines 352–356.  `STAGES.index` is total
here (`indexOf` returns `STAGES.length` for a stage not in the list, where
Python would raise `ValueError`); theorems about it assume
`state.stage ∈ STAGES`, which holds for every state the engine builds. -/
def advance_stage (state : MeetingState) (next_stage : Option String) : MeetingState :=
  let newStage := match next_stage with
    | some s => if s ∈ STAGES then s else advFallback state.stage
    | none => advFallback state.stage
  reset_stage_counters { state with stage := newStage, stage_turns := 0 }

/-- The `max_turns` table of `chair_step` (meetingSim.py lines 149–150),
with `.get(stage, 6)`. -/
def chairMaxTurns (stage : String) : Nat :=
  if stage = "introduce" then 6 else if stage = "clarify" then 6
  else if stage = "discuss" then 8 else if stage = "options" then 6
  else if stage = "evaluate" then 6 else if stage = "decide" then 4
  else if stage = "confirm" then 2 else 6

/-- Python `len(set(stances.values())) == 1`: the stance map is non-empty
and all its values agree. -/
def stancesUnanimous (stances : List (String × String)) : Bool :=
  match stances with
  | [] => false
  | (_, v) :: t => t.all (fun p => p.2 = v)

/-- First-occurrence-ordered distinct values of a list (the iteration order
of the keys of a Python `Counter` built from it). -/
def distinctInOrder (l : List String) : List String :=
  l.foldl (fun acc x => if x ∈ acc then acc else acc ++ [x]) []

def countOcc (l : List String) (v : String) : Nat :=
  (l.filter (fun x => x = v)).length

/-- `max(Counter(state["stances"].values()), key=counts.get)` of the
`chair_step` decide fallback: the first stance value, in first-occurrence
order, with the maximal count.  Python raises on an empty map; the engine
never reaches that case and the embedding returns `""` there. -/
def majorityStance (stances : List (String × String)) : String :=
  let vals := stances.map Prod.snd
  match distinctInOrder vals with
  | [] => ""
  | k :: ks => ks.foldl (fun acc x => if countOcc vals acc < countOcc vals x then x else acc) k

/-- Python truthiness of `state["decision"]` (`None` and `""` are falsy). -/
def decisionFalsy (d : Option String) : Bool := d.getD "" = ""

/-- Python `f"{state['decision']}"` on the optional decision. -/
def optionPyStr (d : Option String) : String := d.getD "None"

/-- `chair_step` of meetingSim.py lines 143–225.  The chair-guidance LLM
call of the final branch is modelled by the oracle string `chairResp`. -/
def chair_step (chairResp : String) (state : MeetingState) : MeetingState :=
  if chairMaxTurns state.stage ≤ state.stage_turns then
    let state := { state with dialogue := state.dialogue ++
      ["[" ++ state.stage ++ "] CHAIR (Alice): We\x27ve had enough contributions here. Let\x27s move on."] }
    advance_stage state none
  else if (state.stage ≠ "decide" ∧ state.stage ≠ "confirm") ∧ stancesUnanimous state.stances then
    let state := { state with dialogue := state.dialogue ++
      ["[" ++ state.stage ++ "] CHAIR (Alice): It looks like we have consensus. Let\x27s move forward."] }
    advance_stage state none
  else if state.stage = "decide" ∧ decisionFalsy state.decision then
    let state :=
      match best_option state.options with
      | some oid =>
        match List.lookup oid state.options with
        | some opt =>
          let state := { state with decision := some (oid ++ ": " ++ opt.text) }
          { state with dialogue := state.dialogue ++
            ["[decide] CHAIR (Alice): Based on the votes, we\x27ll adopt " ++ oid
              ++ " — supporters=" ++ toString opt.supporters.length
              ++ ", opponents=" ++ toString opt.opponents.length
              ++ ", abstainers=" ++ toString opt.abstainers.length ++ "."] }
        | none => state  -- unreachable: `best_option` only returns registered ids
      | none =>
        let decision := majorityStance state.stances
        let state := { state with decision := some decision }
        { state with dialogue := state.dialogue ++
          ["[decide] CHAIR (Alice): We don’t have a clear option, so I’m calling it: decision = "
            ++ decision ++ "."] }
    advance_stage state (some "confirm")
  else if state.stage = "confirm" then
    { state with dialogue := state.dialogue ++
      ["[confirm] CHAIR (Alice): Thank you everyone. The meeting is concluded. Final decision: "
        ++ optionPyStr state.decision ++ "."] }
  else
    { state with
        dialogue := state.dialogue ++ ["[" ++ state.stage ++ "] CHAIR (Alice): " ++ chairResp],
        last_speaker := "Alice",
        stage_turns := state.stage_turns + 1,
        turn := state.turn + 1 }

/-- `summarizer_step` of meetingSim.py lines 227–233; the summary LLM call
is modelled by the oracle string `summary`. -/
def summarizer_step (summary : String) (state : MeetingState) : MeetingState :=
  { state with dialogue := state.dialogue ++
    ["[" ++ state.stage ++ "] (Summary) " ++ summary] }

/-- The stage-transition fragment of `agent_step` in Original/meetingSim.py
lines 681–685 (`parsed.next_stage` is a required `str` field there):
consensus advances one stage; otherwise `end_stage` with a valid
`next_stage` jumps to exactly that stage, earlier or later. -/
def original_stage_transition (state : MeetingState) (end_stage : Bool)
    (next_stage : String) : MeetingState :=
  if stancesUnanimous state.stances then
    let state := { state with dialogue := state.dialogue ++
      ["[" ++ state.stage ++ "] Consensus reached → moving to next stage."] }
    advance_stage state none
  else if end_stage ∧ next_stage ∈ STAGES then
    advance_stage state (some next_stage)
  else state

/-! ## Structured-LLM fallback turns (C3) -/

/-- The dictionary context consulted by the fallback branches of both
`call_structured_llm` functions via `context.get(key, default)`. -/
structure LLMContext where
  agent : Option String := none
  agents : Option (List String) := none
  issue : Option String := none
deriving DecidableEq, Repr

/-- The fallback turn built in the `except` branch of `call_structured_llm`
in meetingSim.py lines 258–265; `random.choice` is modelled by the oracle
index `r`. -/
def fallbackTurn (ctx : LLMContext) (stage : String) (r : Nat) : MeetingTurn :=
  let agentsL := ctx.agents.getD ["Agent"]
  { asker := ctx.agent.getD "Unknown",
    responder := agentsL.getD (r % agentsL.length) "Agent",
    question := ctx.issue.getD "Clarify?",
    message := "Sorry, I didn’t quite catch that — let’s move on.",
    reaction := "accept",
    next_stage := some stage }

/-- The fallback turn built in the `except` branch of `call_structured_llm`
in meeting_sim.py lines 193–200 (whose `MeetingTurn` has no `next_stage`). -/
def fallbackTurnRefactored (ctx : LLMContext) (r : Nat) : MeetingTurnR :=
  let agentsL := ctx.agents.getD ["Agent"]
  { asker := ctx.agent.getD "Unknown",
    responder := agentsL.getD (r % agentsL.length) "Agent",
    question := ctx.issue.getD "Clarify?",
    message := "Let\x27s move on.",
    reaction := "accept" }

/-! ## Streaming orchestrator (backend/app/core/simulator_streaming.py)

`run_meeting_streaming` is in src; the `chair_step`, `agent_step`,
`summarizer_step`, `build_options_summary` and `summarize_meeting` it
imports live in the backend's `simulator` module, which is not part of the
sources here, so they are abstract oracle parameters: the theorems below
hold for every choice of them.  The cancellation flag is a fixed boolean
(set before the generator is first pumped and never changed). -/

inductive StreamEvent where
  | dialogue (line : String)
  | finalEv (decision : Option String) (summary : String) (options_summary : String)
      (options_proposed votes_cast : Nat) (cancelled : Bool)
deriving DecidableEq, Repr

structure StreamOracles where
  chair : MeetingState → MeetingState
  agentF : String → MeetingState → MeetingState
  summarizer : MeetingState → MeetingState
  optionsSummary : MeetingState → String
  summarize : List String → Option String → String → List String → String → String

/-- `yield` of every dialogue line appended past index `prevLen`. -/
def emitNew (st : MeetingState) (prevLen : Nat) : List StreamEvent :=
  (st.dialogue.drop prevLen).map StreamEvent.dialogue

/-- `previous_dialogue_len` update (only moves forward). -/
def newLen (st : MeetingState) (prevLen : Nat) : Nat :=
  if prevLen < st.dialogue.length then st.dialogue.length else prevLen

/-- The `for agent in agents` loop body of `run_meeting_streaming`
(the mid-loop cancellation checks never fire for a flag that is constant
`False`, the only case in which this loop runs). -/
def agentRound (o : StreamOracles) :
    List String → MeetingState → Nat → List StreamEvent × MeetingState × Nat
  | [], st, prevLen => ([], st, prevLen)
  | a :: rest, st, prevLen =>
    let st1 := o.agentF a st
    let evs := emitNew st1 prevLen
    let len1 := newLen st1 prevLen
    if st1.decision.isSome || st1.stage == "confirm" then (evs, st1, len1)
    else
      let r := agentRound o rest st1 len1
      (evs ++ r.1, r.2.1, r.2.2)

/-- The `while not cancel_flag["cancelled"]` loop of
`run_meeting_streaming`, for a constant-`False` flag, with `fuel` bounding
the number of iterations (the Python loop may run unboundedly). -/
def streamLoop (o : StreamOracles) (agents : List String) :
    Nat → MeetingState → Nat → List StreamEvent × MeetingState
  | 0, st, _ => ([], st)
  | Nat.succ fuel, st, prevLen =>
    let st1 := o.chair st
    let evs1 := emitNew st1 prevLen
    let len1 := newLen st1 prevLen
    if st1.decision.isSome || st1.stage == "confirm" then (evs1, st1)
    else
      let r2 := agentRound o agents st1 len1
      let st2 := r2.2.1
      if st2.decision.isSome || st2.stage == "confirm" then (evs1 ++ r2.1, st2)
      else
        let st3 := o.summarizer st2
        let evs3 := emitNew st3 r2.2.2
        let len3 := newLen st3 r2.2.2
        if st3.decision.isSome || st3.stage == "confirm" then (evs1 ++ r2.1 ++ evs3, st3)
        else
          let r4 := streamLoop o agents fuel st3 len3
          (evs1 ++ r2.1 ++ evs3 ++ r4.1, r4.2)

/-- The `initial_state` literal of `run_meeting_streaming` (restricted to
the fields of the embedded `MeetingState`; every agent's stance is set to
`"neutral"`). -/
def initStreamState (issue : String) (agents : List String) : MeetingState :=
  { issue := issue, agents := agents,
    stances := agents.map (fun a => (a, "neutral")) }

/-- `run_meeting_streaming` of simulator_streaming.py lines 12–176, for a
time-invariant cancellation flag.  Python `issue or default` /
`agents or default` treat `""` and `[]` as falsy. -/
def run_meeting_streaming (o : StreamOracles) (cancelled : Bool) (fuel : Nat)
    (issue : Option String) (agents : Option (List String)) :
    List StreamEvent × MeetingState :=
  let issue := match issue with
    | some s => if s = "" then "How can I make product X in the UK more profitable ?" else s
    | none => "How can I make product X in the UK more profitable ?"
  let agents := match agents with
    | some (a :: rest) => a :: rest
    | _ => ["Alice", "Bob", "Charlie", "Dana"]
  let st0 := initStreamState issue agents
  let r := if cancelled then ([], st0) else streamLoop o agents fuel st0 0
  let st := r.2
  let osum := o.optionsSummary st
  let smry := o.summarize st.dialogue st.decision st.issue st.actions osum
  (r.1 ++ [StreamEvent.finalEv st.decision smry osum
      st.options_proposed st.votes_cast cancelled], st)

/-! ## Helper lemmas -/

lemma getD_mod_mem (l : List String) (r : Nat) (d : String) (h : l ≠ []) :
    l.getD (r % l.length) d ∈ l := by
  have hl : 0 < l.length := List.length_pos.mpr h
  have hm : r % l.length < l.length := Nat.mod_lt _ hl
  rw [List.getD_eq_getElem?_getD, List.getElem?_eq_getElem hm, Option.getD_some]
  exact List.getElem_mem hm

lemma valid_next_stage_mem (s : String) : valid_next_stage s ∈ STAGES := by
  unfold valid_next_stage
  split
  · assumption
  · decide

/-! ## C8 — persuasion probability -/

/-- C8: `persuasion_probability(sp, li, dom_sp, align, aff)` equals the
spec formula
`clamp(0.15 + 0.35·sp.persuasion + 0.25·min(1, dom_sp/1.5) + 0.20·align +
0.25·clamp(aff, −0.5, 0.5) − 0.20·li.conflict_avoid, 0.02, 0.9)`,
and its value always lies in the interval [0.02, 0.9]. -/
theorem persuasion_probability_spec (sp li : List (String × ℚ)) (dom align aff : ℚ) :
    persuasion_probability sp li dom align aff
      = clampSpec (0.15 + 0.35 * dictGet sp "persuasion" 0 + 0.25 * min 1 (dom / 1.5)
          + 0.20 * align + 0.25 * clampSpec aff (-0.5) 0.5
          - 0.20 * dictGet li "conflict_avoid" 0) 0.02 0.9
    ∧ 0.02 ≤ persuasion_probability sp li dom align aff
    ∧ persuasion_probability sp li dom align aff ≤ 0.9 := by
  refine ⟨rfl, le_max_left _ _, max_le (by norm_num) (min_le_left _ _)⟩

/-! ## C9 — coerce_agent -/

/-- C9: `coerce_agent` returns either a roster member matching the
(stripped, lower-cased) input case-insensitively, or the literal
`"Alice"`; an empty name, a collective word of `NON_PERSON_MAP`, and a
name matching no roster member all map to `"Alice"` (whether or not an
agent named Alice is on the roster). -/
theorem coerce_agent_spec (name : String) (state : MeetingState) :
    ((∃ a, a ∈ state.agents ∧ coerce_agent name state = a
        ∧ pyLower (pyStrip name) = pyLower a)
      ∨ coerce_agent name state = "Alice")
    ∧ (name = "" → coerce_agent name state = "Alice")
    ∧ (pyLower (pyStrip name) ∈ NON_PERSON_MAP → coerce_agent name state = "Alice")
    ∧ ((∀ a ∈ state.agents, pyLower (pyStrip name) ≠ pyLower a) →
        coerce_agent name state = "Alice") := by
  by_cases h1 : name = ""
  · simp [coerce_agent, h1]
  · by_cases h2 : pyLower (pyStrip name) ∈ NON_PERSON_MAP
    · simp [coerce_agent, h1, h2]
    · cases hf : state.agents.find? (fun a => pyLower (pyStrip name) == pyLower a) with
      | none =>
        have hval : coerce_agent name state = "Alice" := by
          simp [coerce_agent, h1, h2, hf]
        exact ⟨Or.inr hval, fun _ => hval, fun _ => hval, fun _ => hval⟩
      | some a =>
        have hval : coerce_agent name state = a := by
          simp [coerce_agent, h1, h2, hf]
        have hmem : a ∈ state.agents := List.mem_of_find?_eq_some hf
        have heq : pyLower (pyStrip name) = pyLower a := by
          have := List.find?_some hf
          simpa using this
        refine ⟨Or.inl ⟨a, hmem, hval, heq⟩, fun h => absurd h h1,
          fun h => absurd h h2, fun h => absurd heq (h a hmem)⟩

/-- Witness for C9 at a concrete input: a name matching no roster member
is coerced to `"Alice"` even though no roster member is named Alice. -/
theorem coerce_agent_spec_witness :
    coerce_agent "Zoe" { agents := ["Bob", "Cara"] } = "Alice" :=
  (coerce_agent_spec "Zoe" { agents := ["Bob", "Cara"] }).2.2.2 (by decide)

/-! ## C5 — sanitize_turn next_stage normalization -/

/-- C5 (amended): after `sanitize_turn`, `next_stage` is always a member
of `STAGES`; a missing (or empty) `next_stage` becomes the current stage,
but a non-empty value outside `STAGES` becomes `"discuss"`, not the
current stage. -/
theorem sanitize_turn_next_stage_spec (r1 r2 : Nat) (parsed : MeetingTurn)
    (state : MeetingState) (caller : String) :
    (∃ s, (sanitize_turn r1 r2 parsed state caller).next_stage = some s ∧ s ∈ STAGES)
    ∧ ((parsed.next_stage = none ∨ parsed.next_stage = some "") → state.stage ∈ STAGES →
        (sanitize_turn r1 r2 parsed state caller).next_stage = some state.stage)
    ∧ (∀ v, parsed.next_stage = some v → v ≠ "" → v ∉ STAGES →
        (sanitize_turn r1 r2 parsed state caller).next_stage = some "discuss") := by
  refine ⟨⟨valid_next_stage (match parsed.next_stage with
      | some s => if s = "" then state.stage else s
      | none => state.stage), rfl, valid_next_stage_mem _⟩, ?_, ?_⟩
  · rintro (h | h) hst
    · simp [sanitize_turn, h, valid_next_stage, hst]
    · simp [sanitize_turn, h, valid_next_stage, hst]
  · intro v hv hne hnot
    simp [sanitize_turn, hv, hne, valid_next_stage, hnot]

def c5turn : MeetingTurn :=
  { asker := "Bob", question := "q", responder := "Cara", message := "m",
    reaction := "accept", next_stage := some "wrapup" }

def c5state : MeetingState := { stage := "evaluate", agents := ["Alice", "Bob", "Cara"] }

/-- C5 counterexample: with the meeting in stage `"evaluate"` and a parsed
`next_stage` of `"wrapup"` (not a member of STAGES), sanitation yields
`"discuss"`, not the current stage `"evaluate"` as the claim states. -/
theorem sanitize_turn_invalid_goes_to_discuss :
    (sanitize_turn 0 0 c5turn c5state "Bob").next_stage = some "discuss"
    ∧ (sanitize_turn 0 0 c5turn c5state "Bob").next_stage ≠ some "evaluate" := by
  decide

/-- Witness for C5 at a concrete input: a missing `next_stage` becomes the
current stage. -/
theorem sanitize_turn_next_stage_spec_witness :
    (sanitize_turn 0 0 { c5turn with next_stage := none } c5state "Bob").next_stage
      = some "evaluate" :=
  (sanitize_turn_next_stage_spec 0 0 { c5turn with next_stage := none } c5state "Bob").2.1
    (Or.inl rfl) (by decide)

/-! ## C3 — structured-LLM fallback turn -/

def mkCtx (agent : String) (agents : List String) (issue : String) : LLMContext :=
  { agent := some agent, agents := some agents, issue := some issue }

/-- The amended C3 property: on LLM failure both fallback constructors
produce a turn whose asker is the calling agent, whose responder is a
random member of the context's agent list (possibly the caller itself),
and whose reaction is `"accept"`; meetingSim.py's fallback message is
"Sorry, I didn’t quite catch that — let’s move on." with `next_stage` the
current stage, while meeting_sim.py's message is "Let's move on." (its
turn carries no `next_stage` field at all). -/
def FallbackSpec (agent issue stage : String) (agents : List String) (r : Nat) : Prop :=
  (fallbackTurn (mkCtx agent agents issue) stage r).asker = agent
  ∧ (fallbackTurn (mkCtx agent agents issue) stage r).responder ∈ agents
  ∧ (fallbackTurn (mkCtx agent agents issue) stage r).message
      = "Sorry, I didn’t quite catch that — let’s move on."
  ∧ (fallbackTurn (mkCtx agent agents issue) stage r).reaction = "accept"
  ∧ (fallbackTurn (mkCtx agent agents issue) stage r).next_stage = some stage
  ∧ (fallbackTurnRefactored (mkCtx agent agents issue) r).asker = agent
  ∧ (fallbackTurnRefactored (mkCtx agent agents issue) r).responder ∈ agents
  ∧ (fallbackTurnRefactored (mkCtx agent agents issue) r).message = "Let\x27s move on."
  ∧ (fallbackTurnRefactored (mkCtx agent agents issue) r).reaction = "accept"

/-- C3 (amended): the fallback-turn property above, for every non-empty
agent list in the context. -/
theorem call_structured_llm_fallback_spec (agent issue stage : String)
    (agents : List String) (r : Nat) (h : agents ≠ []) :
    FallbackSpec agent issue stage agents r := by
  refine ⟨rfl, ?_, rfl, rfl, rfl, rfl, ?_, rfl, rfl⟩
  · exact getD_mod_mem agents r "Agent" h
  · exact getD_mod_mem agents r "Agent" h

/-- Witness for C3 at a concrete input. -/
theorem call_structured_llm_fallback_spec_witness :
    FallbackSpec "Ann" "Issue" "discuss" ["Ann", "Bob"] 1 :=
  call_structured_llm_fallback_spec "Ann" "Issue" "discuss" ["Ann", "Bob"] 1 (by decide)

/-- C3 counterexample: the fallback responder is drawn from the whole
agent list and can equal the calling agent (so it is not always a random
*other* agent), and meetingSim.py's fallback message is not
"Let's move on.". -/
theorem fallback_responder_can_equal_caller :
    (fallbackTurnRefactored (mkCtx "Ann" ["Ann", "Bob"] "Issue") 0).responder
      = (fallbackTurnRefactored (mkCtx "Ann" ["Ann", "Bob"] "Issue") 0).asker
    ∧ (fallbackTurn (mkCtx "Ann" ["Ann", "Bob"] "Issue") "discuss" 0).message
        ≠ "Let\x27s move on." := by
  decide

/-! ## C7 — best_option -/

lemma bestFold_mem (t : List (String × OptionInfo)) (i : String × OptionInfo) :
    t.foldl (fun acc x => if optionKey4 acc < optionKey4 x then x else acc) i ∈ i :: t := by
  induction t generalizing i with
  | nil => simp
  | cons x t ih =>
    rw [List.foldl_cons]
    by_cases hc : optionKey4 i < optionKey4 x
    · rw [if_pos hc]
      rcases List.mem_cons.mp (ih x) with h1 | h1
      · rw [h1]
        exact List.mem_cons.mpr (Or.inr (List.mem_cons_self x t))
      · exact List.mem_cons.mpr (Or.inr (List.mem_cons.mpr (Or.inr h1)))
    · rw [if_neg hc]
      rcases List.mem_cons.mp (ih i) with h1 | h1
      · rw [h1]
        exact List.mem_cons_self i _
      · exact List.mem_cons.mpr (Or.inr (List.mem_cons.mpr (Or.inr h1)))

lemma bestFold_ub (t : List (String × OptionInfo)) :
    ∀ (i y : String × OptionInfo), y ∈ i :: t →
      optionKey4 y ≤ optionKey4
        (t.foldl (fun acc x => if optionKey4 acc < optionKey4 x then x else acc) i) := by
  induction t with
  | nil =>
    intro i y hy
    rw [List.mem_singleton.mp hy, List.foldl_nil]
  | cons x t ih =>
    intro i y hy
    rw [List.foldl_cons]
    by_cases hc : optionKey4 i < optionKey4 x
    · rw [if_pos hc]
      rcases List.mem_cons.mp hy with h1 | h1
      · calc optionKey4 y = optionKey4 i := by rw [h1]
          _ ≤ optionKey4 x := le_of_lt hc
          _ ≤ _ := ih x x (List.mem_cons_self x t)
      · exact ih x y h1
    · rw [if_neg hc]
      rcases List.mem_cons.mp hy with h1 | h1
      · exact ih i y (List.mem_cons.mpr (Or.inl h1))
      · rcases List.mem_cons.mp h1 with h2 | h2
        · calc optionKey4 y = optionKey4 x := by rw [h2]
            _ ≤ optionKey4 i := le_of_not_lt hc
            _ ≤ _ := ih i i (List.mem_cons_self i t)
        · exact ih i y (List.mem_cons.mpr (Or.inr h2))

lemma optionKey3_le_of_key4_le (a b : String × OptionInfo)
    (h : optionKey4 a ≤ optionKey4 b) : optionKey3 a ≤ optionKey3 b := by
  simp only [optionKey4] at h
  simp only [optionKey3]
  rw [Prod.Lex.le_iff] at h ⊢
  rcases h with h | ⟨h1, h2⟩
  · exact Or.inl h
  · refine Or.inr ⟨h1, ?_⟩
    rw [Prod.Lex.le_iff] at h2 ⊢
    rcases h2 with h2 | ⟨h2a, h2b⟩
    · exact Or.inl h2
    · refine Or.inr ⟨h2a, ?_⟩
      rw [Prod.Lex.le_iff] at h2b
      rcases h2b with h3 | ⟨h3, _⟩
      · exact le_of_lt h3
      · exact le_of_eq h3

/-- C7: `best_option` returns `none` exactly when the registry is empty,
and on a non-empty registry it returns the id of a registered option whose
`(supporters − opponents, supporters, −first_turn)` key is
lexicographically greatest (hence maximal). -/
theorem best_option_spec (options : List (String × OptionInfo)) :
    (best_option options = none ↔ options = [])
    ∧ ∀ oid, best_option options = some oid →
        ∃ info, (oid, info) ∈ options
          ∧ ∀ q ∈ options, optionKey3 q ≤ optionKey3 (oid, info) := by
  cases options with
  | nil =>
    refine ⟨by simp [best_option], ?_⟩
    intro oid h
    simp [best_option] at h
  | cons h t =>
    refine ⟨by simp [best_option], ?_⟩
    intro oid heq
    simp only [best_option, Option.some.injEq] at heq
    refine ⟨(t.foldl (fun acc x => if optionKey4 acc < optionKey4 x then x else acc) h).2, ?_, ?_⟩
    · rw [← heq]
      exact bestFold_mem t h
    · intro q hq
      have h4 := bestFold_ub t h q hq
      have h3 := optionKey3_le_of_key4_le _ _ h4
      rw [← heq]
      exact h3

def c7options : List (String × OptionInfo) :=
  [("O1", { text := "plan a", proposer := "Paula", supporters := ["Ann"],
            opponents := [], abstainers := [], first_stage := "options", first_turn := 3 }),
   ("O2", { text := "plan b", proposer := "Quinn", supporters := ["Ann", "Bob"],
            opponents := ["Cara"], abstainers := [], first_stage := "options", first_turn := 5 })]

/-- Witness for C7 at a concrete two-option registry: the returned option
`O2` is registered and its score key dominates every entry. -/
theorem best_option_spec_witness :
    ∃ info, ("O2", info) ∈ c7options
      ∧ ∀ q ∈ c7options, optionKey3 q ≤ optionKey3 ("O2", info) :=
  (best_option_spec c7options).2 "O2" (by decide)

/-! ## Association-list lemmas for the option registry -/

lemma lookup_cons_self (k : String) (v : OptionInfo) (t : List (String × OptionInfo)) :
    List.lookup k ((k, v) :: t) = some v := by
  simp [List.lookup]

lemma lookup_cons_ne (k a : String) (v : OptionInfo) (t : List (String × OptionInfo))
    (h : k ≠ a) : List.lookup a ((k, v) :: t) = List.lookup a t := by
  simp [List.lookup, beq_false_of_ne (Ne.symm h)]

lemma updateOptionInfo_cons_self (k : String) (v : OptionInfo)
    (t : List (String × OptionInfo)) (f : OptionInfo → OptionInfo) :
    updateOptionInfo ((k, v) :: t) k f = (k, f v) :: updateOptionInfo t k f := by
  simp [updateOptionInfo]

lemma updateOptionInfo_cons_ne (k a : String) (v : OptionInfo)
    (t : List (String × OptionInfo)) (f : OptionInfo → OptionInfo) (h : k ≠ a) :
    updateOptionInfo ((k, v) :: t) a f = (k, v) :: updateOptionInfo t a f := by
  simp [updateOptionInfo, h]

lemma lookup_updateOptionInfo (options : List (String × OptionInfo)) (oid : String)
    (f : OptionInfo → OptionInfo) :
    List.lookup oid (updateOptionInfo options oid f) = (List.lookup oid options).map f := by
  induction options with
  | nil => simp [updateOptionInfo]
  | cons p t ih =>
    obtain ⟨k, v⟩ := p
    by_cases h : k = oid
    · subst h
      rw [updateOptionInfo_cons_self, lookup_cons_self, lookup_cons_self]
      rfl
    · rw [updateOptionInfo_cons_ne _ _ _ _ _ h, lookup_cons_ne _ _ _ _ h,
        lookup_cons_ne _ _ _ _ h, ih]

lemma length_updateOptionInfo (options : List (String × OptionInfo)) (oid : String)
    (f : OptionInfo → OptionInfo) :
    (updateOptionInfo options oid f).length = options.length := by
  simp [updateOptionInfo]

lemma find?_lookup (l : List (String × OptionInfo)) (pred : String × OptionInfo → Bool)
    (k : String) (v : OptionInfo) (hnd : (l.map Prod.fst).Nodup)
    (h : l.find? pred = some (k, v)) : List.lookup k l = some v := by
  induction l with
  | nil => simp at h
  | cons p t ih =>
    obtain ⟨k0, v0⟩ := p
    rw [List.map_cons, List.nodup_cons] at hnd
    cases hp : pred (k0, v0) with
    | true =>
      rw [List.find?_cons_of_pos _ hp] at h
      simp only [Option.some.injEq, Prod.mk.injEq] at h
      obtain ⟨h1, h2⟩ := h
      subst h1; subst h2
      exact lookup_cons_self _ _ _
    | false =>
      rw [List.find?_cons_of_neg _ (by simp [hp])] at h
      have hkmem : k ∈ t.map Prod.fst :=
        List.mem_map.mpr ⟨(k, v), List.mem_of_find?_eq_some h, rfl⟩
      have hne : k0 ≠ k := fun he => hnd.1 (he ▸ hkmem)
      rw [lookup_cons_ne _ _ _ _ hne]
      exact ih hnd.2 h

lemma latestOptionKey_isSome (options : List (String × OptionInfo))
    (h : options ≠ []) : ∃ oid, latestOptionKey options = some oid := by
  cases options with
  | nil => exact absurd rfl h
  | cons p t => exact ⟨_, rfl⟩

lemma resolve_option_ref_isSome (options : List (String × OptionInfo))
    (ref : Option String) (h : options ≠ []) :
    ∃ oid, resolve_option_ref options ref = some oid := by
  obtain ⟨k, hk⟩ := latestOptionKey_isSome options h
  cases ref with
  | none => exact ⟨k, hk⟩
  | some r =>
    have hr : resolve_option_ref options (some r)
        = if r ≠ "" ∧ (options.lookup r).isSome then some r else latestOptionKey options := rfl
    by_cases hc : r ≠ "" ∧ (options.lookup r).isSome
    · exact ⟨r, by rw [hr, if_pos hc]⟩
    · exact ⟨k, by rw [hr, if_neg hc]; exact hk⟩

lemma resolve_option_ref_nil (ref : Option String) :
    resolve_option_ref [] ref = none := by
  cases ref with
  | none => rfl
  | some r => simp [resolve_option_ref, latestOptionKey]

/-! ## C6 — register_option duplicate handling -/

/-- What C6 asserts about the duplicate branch of `register_option`: the
existing id is returned, the registry size and the option counter are
unchanged, the proposer is added to the matched option's supporters, a
"(duplicate)" notice is appended to the dialogue, and the implicit
supporting vote is logged. -/
def RegisterDupSpec (attrs : List (String × ℚ)) (st : MeetingState)
    (text proposer oid : String) (info : OptionInfo) : Prop :=
  (registerOption attrs st text proposer).1 = oid
  ∧ (registerOption attrs st text proposer).2.options.length = st.options.length
  ∧ (registerOption attrs st text proposer).2.option_counter = st.option_counter
  ∧ List.lookup oid (registerOption attrs st text proposer).2.options
      = some { info with supporters := setAdd info.supporters proposer }
  ∧ (registerOption attrs st text proposer).2.dialogue
      = st.dialogue ++ ["[" ++ st.stage ++ "] (duplicate) Referencing existing "
          ++ oid ++ ": " ++ info.text]
  ∧ (registerOption attrs st text proposer).2.episodic
      = st.episodic ++
          [{ turn := st.turn, stage := st.stage, speaker := proposer,
             kind := "vote", text := "support",
             meta := { id := some oid, comment := some "proposer implicit support" } }]

/-- What C6 asserts about the fresh branch of `register_option`: a fresh id
`O<n>` with the incremented counter, and the option is appended with the
proposer as sole initial supporter. -/
def RegisterFreshSpec (attrs : List (String × ℚ)) (st : MeetingState)
    (text proposer : String) : Prop :=
  (registerOption attrs st text proposer).1 = "O" ++ toString (st.option_counter + 1)
  ∧ (registerOption attrs st text proposer).2.option_counter = st.option_counter + 1
  ∧ ∃ info, (registerOption attrs st text proposer).2.options
        = st.options ++ [((registerOption attrs st text proposer).1, info)]
      ∧ info.supporters = [proposer] ∧ info.opponents = [] ∧ info.abstainers = []
      ∧ info.text = pyStrip text ∧ info.proposer = proposer

/-- C6: `register_option` merges a proposal whose normalized text
(lower-cased, whitespace-collapsed) matches an existing option into that
option — returning the existing id with registry size and counter
unchanged, supporters extended by the proposer, a duplicate notice and an
implicit-vote log appended — and otherwise allocates the fresh id `O<n>`
for the incremented counter and inserts the option with the proposer as
sole supporter. -/
theorem register_option_spec (attrs : List (String × ℚ)) (st : MeetingState)
    (text proposer : String) (hnd : (st.options.map Prod.fst).Nodup) :
    (∀ oid info,
        st.options.find? (fun p => normText p.2.text = normText text) = some (oid, info) →
        RegisterDupSpec attrs st text proposer oid info)
    ∧ (st.options.find? (fun p => normText p.2.text = normText text) = none →
        RegisterFreshSpec attrs st text proposer) := by
  constructor
  · intro oid info hfind
    have hlk : List.lookup oid st.options = some info := find?_lookup _ _ _ _ hnd hfind
    unfold RegisterDupSpec registerOption
    rw [hfind]
    refine ⟨rfl, ?_, rfl, ?_, rfl, rfl⟩
    · exact length_updateOptionInfo st.options oid (addSupporter proposer)
    · show List.lookup oid (updateOptionInfo st.options oid (addSupporter proposer))
        = some { info with supporters := setAdd info.supporters proposer }
      rw [lookup_updateOptionInfo, hlk]
      rfl
  · intro hfind
    unfold RegisterFreshSpec registerOption
    rw [hfind]
    exact ⟨rfl, rfl, _, rfl, rfl, rfl, rfl, rfl, rfl⟩

def c6info : OptionInfo :=
  { text := "hire two engineers", proposer := "Alice", supporters := ["Alice"],
    opponents := [], abstainers := [], first_stage := "options", first_turn := 2 }

def c6state : MeetingState :=
  { stage := "options", agents := ["Alice", "Dana"],
    options := [("O1", c6info)], option_counter := 1 }

/-- Witness for C6 at a concrete registry: re-registering
"Hire   Two Engineers" (same text up to case and whitespace) merges into
the existing `O1`. -/
theorem register_option_spec_witness :
    RegisterDupSpec [] c6state "Hire   Two Engineers" "Dana" "O1" c6info :=
  (register_option_spec [] c6state "Hire   Two Engineers" "Dana" (by decide)).1
    "O1" c6info (by decide)

/-! ## C10 — vote_option totality -/

/-- What C10 asserts when at least one option exists: some option id is
resolved, `votes_cast` is incremented, and the voter is first removed from
all three vote sets of that option and then inserted into the supporters
on `"support"`, the opponents on `"oppose"`, and the abstainers on any
other vote string whatsoever. -/
def VoteTotalSpec (st : MeetingState) (voter : String) (ref : Option String)
    (vote : String) (comment : Option String) : Prop :=
  ∃ oid, resolve_option_ref st.options ref = some oid
    ∧ (vote_option st voter ref vote comment).votes_cast = st.votes_cast + 1
    ∧ ∀ info, List.lookup oid st.options = some info →
        List.lookup oid (vote_option st voter ref vote comment).options
          = some { info with
              supporters := if vote = "support"
                then setAdd (setDiscard info.supporters voter) voter
                else setDiscard info.supporters voter,
              opponents := if vote = "oppose"
                then setAdd (setDiscard info.opponents voter) voter
                else setDiscard info.opponents voter,
              abstainers := if vote ≠ "support" ∧ vote ≠ "oppose"
                then setAdd (setDiscard info.abstainers voter) voter
                else setDiscard info.abstainers voter }

/-- C10: `vote_option` is total in the vote argument — with an empty
registry it only appends the "(vote ignored)" dialogue line and changes
nothing else, and with a non-empty registry it resolves an option and
re-files the voter according to the vote string, any unrecognized string
counting as abstain. -/
theorem vote_option_spec (st : MeetingState) (voter : String) (ref : Option String)
    (vote : String) (comment : Option String) :
    (st.options = [] →
      vote_option st voter ref vote comment
        = { st with dialogue := st.dialogue ++
            ["[" ++ st.stage ++ "] (vote ignored) No option available to vote on."] })
    ∧ (st.options ≠ [] → VoteTotalSpec st voter ref vote comment) := by
  constructor
  · intro hempty
    unfold vote_option
    rw [hempty, resolve_option_ref_nil]
  · intro hne
    obtain ⟨oid, hres⟩ := resolve_option_ref_isSome st.options ref hne
    refine ⟨oid, hres, ?_, ?_⟩
    · unfold vote_option
      rw [hres]
      rfl
    · intro info hlk
      have hopts : (vote_option st voter ref vote comment).options
          = updateOptionInfo st.options oid (voteUpdate voter vote) := by
        unfold vote_option
        rw [hres]
        rfl
      rw [hopts, lookup_updateOptionInfo, hlk]
      show some (voteUpdate voter vote info) = _
      unfold voteUpdate
      by_cases h1 : vote = "support"
      · simp [h1]
      · by_cases h2 : vote = "oppose"
        · simp [h1, h2]
        · simp [h1, h2]

def c10info : OptionInfo :=
  { text := "plan a", proposer := "Alice", supporters := ["Alice"],
    opponents := [], abstainers := [], first_stage := "options", first_turn := 1 }

def c10state : MeetingState :=
  { stage := "evaluate", agents := ["Alice", "Bob"],
    options := [("O1", c10info)], option_counter := 1 }

/-- Witness for C10 at a concrete state: an arbitrary vote token
(`"banana"`) is accepted and files the voter among the abstainers of the
resolved option. -/
theorem vote_option_spec_witness :
    VoteTotalSpec c10state "Bob" none "banana" none :=
  (vote_option_spec c10state "Bob" none "banana" none).2 (by decide)

/-! ## C1 — voter-set disjointness across register_option -/

/-- `true` iff `voter` sits simultaneously in the supporters and the
opponents of option `oid` — i.e. the pairwise-disjointness invariant on
the voter sets is violated. -/
def disjointnessViolated (st : MeetingState) (oid voter : String) : Bool :=
  match List.lookup oid st.options with
  | some info => info.supporters.contains voter && info.opponents.contains voter
  | none => false

def c1state : MeetingState := { stage := "options", agents := ["Alice", "Bob", "Carol"] }

/-- Carol registers "plan a", Bob votes oppose on it, then Bob proposes
the duplicate text "Plan  A". -/
def c1final : MeetingState :=
  (registerOption []
    (vote_option (registerOption [] c1state "plan a" "Carol").2 "Bob" none "oppose" none)
    "Plan  A" "Bob").2

/-- C1: evaluation of the code at the failing input — after the duplicate
merge, Bob is simultaneously a supporter and an opponent of `O1`, so the
three voter sets are not pairwise disjoint after `register_option`
(its duplicate branch adds the proposer to the supporters without first
removing them from the other two sets, unlike `vote_option`). -/
theorem register_option_duplicate_breaks_disjointness :
    disjointnessViolated c1final "O1" "Bob" = true := by
  decide

/-! ## C4 — stage monotonicity -/

/-- `STAGES.index(s)` (total: `STAGES.length` when not found). -/
def stageIdx (s : String) : Nat := STAGES.indexOf s

lemma stage_mem_cases (s : String) (h : s ∈ STAGES) :
    s = "introduce" ∨ s = "clarify" ∨ s = "discuss" ∨ s = "options"
      ∨ s = "evaluate" ∨ s = "decide" ∨ s = "confirm" := by
  simpa [STAGES] using h

lemma advFallback_mono (s : String) (h : s ∈ STAGES) :
    stageIdx s ≤ stageIdx (advFallback s) := by
  rcases stage_mem_cases s h with rfl | rfl | rfl | rfl | rfl | rfl | rfl <;> decide

lemma stageIdx_le_six (s : String) (h : s ∈ STAGES) : stageIdx s ≤ 6 := by
  rcases stage_mem_cases s h with rfl | rfl | rfl | rfl | rfl | rfl | rfl <;> decide

lemma advance_stage_none_stage (st : MeetingState) :
    (advance_stage st none).stage = advFallback st.stage := rfl

lemma advance_stage_some_stage (st : MeetingState) (s : String) (hs : s ∈ STAGES) :
    (advance_stage st (some s)).stage = s := by
  unfold advance_stage reset_stage_counters
  simp [hs]

/-- C4 (amended): the stage index never decreases through `advance_stage`
with no explicit target, `chair_step`, or `summarizer_step`; the
stage-transition code of `agent_step` in Original/meetingSim.py either
leaves the index no smaller, or — exactly when the parsed turn carries
`end_stage = true` with a valid `next_stage` — sets the stage to that
`next_stage`, which may be an earlier stage. -/
theorem stage_monotonicity (st : MeetingState) (h : st.stage ∈ STAGES) :
    (stageIdx st.stage ≤ stageIdx (advance_stage st none).stage)
    ∧ (∀ resp, stageIdx st.stage ≤ stageIdx (chair_step resp st).stage)
    ∧ (∀ s, (summarizer_step s st).stage = st.stage)
    ∧ (∀ endSt ns, stageIdx st.stage ≤ stageIdx (original_stage_transition st endSt ns).stage
        ∨ (endSt = true ∧ ns ∈ STAGES ∧ (original_stage_transition st endSt ns).stage = ns)) := by
  have hconfirm : ∀ st' : MeetingState,
      stageIdx st.stage ≤ stageIdx (advance_stage st' (some "confirm")).stage := by
    intro st'
    rw [advance_stage_some_stage st' "confirm" (by decide)]
    rw [show stageIdx "confirm" = 6 from by decide]
    exact stageIdx_le_six st.stage h
  refine ⟨advFallback_mono st.stage h, ?_, fun _ => rfl, ?_⟩
  · intro resp
    unfold chair_step
    split_ifs with h1 h2 h3 h4
    · exact advFallback_mono st.stage h
    · exact advFallback_mono st.stage h
    · exact hconfirm _
    · exact le_refl _
    · exact le_refl _
  · intro endSt ns
    unfold original_stage_transition
    split_ifs with h1 h2
    · exact Or.inl (advFallback_mono st.stage h)
    · exact Or.inr ⟨h2.1, h2.2, advance_stage_some_stage _ _ h2.2⟩
    · exact Or.inl (le_refl _)

def c4wstate : MeetingState := { stage := "discuss" }

/-- Witness for C4 at a concrete state: advancing with no target from
`"discuss"` does not decrease the stage index. -/
theorem stage_monotonicity_witness :
    c4wstate.stage ∈ STAGES
      ∧ stageIdx c4wstate.stage ≤ stageIdx (advance_stage c4wstate none).stage :=
  ⟨by decide, (stage_monotonicity c4wstate (by decide)).1⟩

def c4state : MeetingState :=
  { stage := "discuss", stances := [("Bob", "for"), ("Cara", "against")] }

/-- C4 counterexample: in Original/meetingSim.py, a turn with
`end_stage = true` and the valid earlier stage `"introduce"` as
`next_stage` moves the meeting from `"discuss"` back to `"introduce"` —
the stage index strictly decreases, so the stage does regress. -/
theorem agent_step_can_regress_stage :
    (original_stage_transition c4state true "introduce").stage = "introduce"
    ∧ stageIdx (original_stage_transition c4state true "introduce").stage
        < stageIdx c4state.stage := by
  decide

/-! ## C2 — cancellation before the first chair step -/

/-- C2 (amended): with the cancellation flag set before the run starts,
`run_meeting_streaming` emits no dialogue events and exactly one `final`
event with `cancelled = true`; in this case the decision is left `None`
(not "Meeting cancelled by user") and the stage stays `introduce` (not
`confirm`), because the `while not cancelled` guard exits before the
in-loop checkpoint that would set them. -/
theorem run_meeting_streaming_cancelled_before_start (o : StreamOracles) (fuel : Nat)
    (issue : Option String) (agents : Option (List String)) :
    (∃ smry osum, (run_meeting_streaming o true fuel issue agents).1
        = [StreamEvent.finalEv none smry osum 0 0 true])
    ∧ (run_meeting_streaming o true fuel issue agents).2.decision = none
    ∧ (run_meeting_streaming o true fuel issue agents).2.stage = "introduce"
    ∧ (run_meeting_streaming o true fuel issue agents).2.dialogue = [] := by
  exact ⟨⟨_, _, rfl⟩, rfl, rfl, rfl⟩

def trivOracles : StreamOracles :=
  { chair := id, agentF := fun _ => id, summarizer := id,
    optionsSummary := fun _ => "", summarize := fun _ _ _ _ _ => "" }

/-- C2 counterexample: a concrete cancelled-before-start run emits exactly
one final event with `cancelled = true` and no dialogue events, but its
decision is `none` — not `some "Meeting cancelled by user"` — and its
stage is not forced to `confirm`. -/
theorem cancelled_run_decision_not_set :
    (run_meeting_streaming trivOracles true 3 none none).1
      = [StreamEvent.finalEv none "" "" 0 0 true]
    ∧ (run_meeting_streaming trivOracles true 3 none none).2.decision
        ≠ some "Meeting cancelled by user"
    ∧ (run_meeting_streaming trivOracles true 3 none none).2.stage ≠ "confirm" := by
  decide

end MeetingSim
